import Mathlib

/-!
Shallow embedding of `mgba-test-runner/c/test-runner.c` (with its header
`test-runner.h`).

The wrapped emulator core (mgba) is an external collaborator: it is modelled
abstractly.  A `Core` carries the data the wrapper observes through the
collaborator interface: the dimensions reported by `desiredVideoDimensions`,
the success flag returned by `mCoreLoadFile`, and an opaque internal state
that `runFrame` may mutate.  Engine discovery (`mCoreFind`) is an environment
`String → Option Core`; `init`, `mCoreConfigInit` and `reset` mutate only the
engine's opaque internal state and are folded into the state the environment
hands out.

C values that `malloc` leaves indeterminate are modelled with `CVal`:
`undef` is an indeterminate (never-written) value, `defined v` a written one.
Calling a function through an indeterminate or NULL function pointer is a
fault.  Side effects (teardown calls, `free`s, log deliveries) are modelled
as explicit event traces.
-/

namespace TestRunner

/-- A C value that may be indeterminate (malloc'd but never written). -/
inductive CVal (α : Type) where
  | undef : CVal α
  | defined : α → CVal α
deriving DecidableEq

/-- The collaborator emulation core, abstract.  `desiredWidth`/`desiredHeight`
are the values `desiredVideoDimensions` writes (C `unsigned`, so < 2^32);
`loadFileResult` is the boolean result of `mCoreLoadFile`; `state` is the
core's opaque internal state. -/
structure Core where
  desiredWidth : Nat
  desiredHeight : Nat
  loadFileResult : Bool
  state : Nat
deriving DecidableEq

/-- `struct video_buffer` from test-runner.h: width, height (uint32_t) and
the buffer pointer (modelled as an allocation token; 0 is NULL). -/
structure video_buffer where
  width : Nat
  height : Nat
  buffer : Nat
deriving DecidableEq

/-- `struct callback` from test-runner.h: an opaque `data` pointer, a
NULL-able `callback` function pointer and a NULL-able `destroy` function
pointer.  Function pointers are tokens (`Option Nat`, `none` = NULL); each
field may be indeterminate if it was never assigned. -/
structure callback where
  data : CVal Nat
  callback : CVal (Option Nat)
  destroy : CVal (Option Nat)
deriving DecidableEq

/-- `struct MGBA` from test-runner.c.  The embedded `mlogger` field (whose
`log` member is set to `log_output`, recovered from the logger pointer by a
layout cast) is not represented: `log_output` below takes the `MGBA`
directly. -/
structure MGBA where
  core : Core
  videoBuffer : video_buffer
  filename : String
  callback : callback
deriving DecidableEq

/-- BYTES_PER_PIXEL, pinned to 4 by the `_Static_assert` in test-runner.c. -/
def BYTES_PER_PIXEL : Nat := 4

/-- Allocation token for the video buffer `malloc` in `new_runner`
(a single live allocation per runner; any fixed non-NULL token). -/
def videoBufferPtr : Nat := 1

/-- Byte count passed to `malloc` for the video buffer in `new_runner`
(test-runner.c lines 40-43): `videoBufferSize = width * height *
BYTES_PER_PIXEL` computed in C `unsigned` arithmetic, then
`malloc(videoBufferSize * sizeof(*videoBuffer))` with
`sizeof(uint32_t) = 4`, computed in `size_t` arithmetic. -/
def video_buffer_malloc_bytes (width height : Nat) : Nat :=
  ((width * height * BYTES_PER_PIXEL) % 2 ^ 32) * 4 % 2 ^ 64

/-- `new_runner` (test-runner.c lines 21-62).  The malloc'd `MGBA` has
indeterminate fields; the code writes `mlogger.log`, sets
`callback.callback = NULL` (leaving `callback.data` and `callback.destroy`
indeterminate), duplicates the filename, looks the core up with `mCoreFind`
and returns NULL on failure; otherwise it initializes the core, queries the
desired dimensions, mallocs the video buffer, wires it in, calls
`mCoreLoadFile` ignoring its result, initializes config, resets the core and
fills in the remaining fields. -/
def new_runner (env : String → Option Core) (filename : String) :
    Option MGBA :=
  let cb0 : callback :=
    { data := CVal.undef
    , callback := CVal.defined none
    , destroy := CVal.undef }
  match env filename with
  | none => none
  | some core =>
      let width := core.desiredWidth
      let height := core.desiredHeight
      -- mCoreLoadFile(core, mgba->filename); result ignored
      let _loaded := core.loadFileResult
      some
        { core := core
        , videoBuffer :=
            { width := width, height := height, buffer := videoBufferPtr }
        , filename := filename
        , callback := cb0 }

/-- `set_logger` (test-runner.c lines 64-66): struct copy of the supplied
callback into the runner. -/
def set_logger (m : MGBA) (cb : callback) : MGBA :=
  { m with callback := cb }

/-- Observable teardown-time events of `free_runner`. -/
inductive Event where
  | coreDeinit : Event
  | teardown : Nat → CVal Nat → Event
  | fault : Event
  | freeFilename : Event
  | freeBuffer : Event
  | freeRunner : Event
deriving DecidableEq

/-- Calling a C function of one pointer argument through a possibly
indeterminate, possibly NULL function pointer: indeterminate or NULL is a
fault, otherwise the function runs on the argument. -/
def call_fnptr (p : CVal (Option Nat)) (d : CVal Nat) : List Event :=
  match p with
  | CVal.undef => [Event.fault]
  | CVal.defined none => [Event.fault]
  | CVal.defined (some f) => [Event.teardown f d]

/-- `free_runner` (test-runner.c lines 68-74): deinit the core, call
`callback.destroy(callback.data)` unconditionally, `free` the filename,
`free` the video buffer, `free` the runner. -/
def free_runner (m : MGBA) : List Event :=
  Event.coreDeinit ::
    (call_fnptr m.callback.destroy m.callback.data ++
      [Event.freeFilename, Event.freeBuffer, Event.freeRunner])

/-- `advance_frame` (test-runner.c line 76): `mgba->core->runFrame(core)`.
`runFrame` is collaborator code with access to the core only, modelled as an
arbitrary `Core → Core`. -/
def advance_frame (runFrame : Core → Core) (m : MGBA) : MGBA :=
  { m with core := runFrame m.core }

/-- `get_video_buffer` (test-runner.c lines 78-80): returns
`mgba->videoBuffer` by value.  As a state transformer it returns the
returned struct together with the (unmodified) runner state. -/
def get_video_buffer (m : MGBA) : video_buffer × MGBA :=
  (m.videoBuffer, m)

/-- mLogLevel values from the collaborator's `mgba/core/log.h`. -/
def mLOG_FATAL : Nat := 0x01
/-- mLogLevel mLOG_ERROR. -/
def mLOG_ERROR : Nat := 0x02
/-- mLogLevel mLOG_WARN. -/
def mLOG_WARN : Nat := 0x04
/-- mLogLevel mLOG_INFO. -/
def mLOG_INFO : Nat := 0x08
/-- mLogLevel mLOG_DEBUG. -/
def mLOG_DEBUG : Nat := 0x10
/-- mLogLevel mLOG_STUB. -/
def mLOG_STUB : Nat := 0x20
/-- mLogLevel mLOG_GAME_ERROR. -/
def mLOG_GAME_ERROR : Nat := 0x100

/-- `log_level_str` (test-runner.c lines 115-141): the C `switch` over the
level, with "Unknown" for the default case. -/
def log_level_str (level : Nat) : String :=
  if level = mLOG_FATAL then "FATAL"
  else if level = mLOG_ERROR then "ERROR"
  else if level = mLOG_WARN then "WARNING"
  else if level = mLOG_INFO then "INFO"
  else if level = mLOG_DEBUG then "DEBUG"
  else if level = mLOG_STUB then "STUB"
  else if level = mLOG_GAME_ERROR then "GAME ERROR"
  else "Unknown"

/-- The string built by `log_output`'s snprintf/vsnprintf pair:
`"[<level name>] <category name>: <message>"`.  `mLogCategoryName` is
collaborator code, passed in as `catName`. -/
def format_log (catName : Nat → String) (category level : Nat)
    (msg : String) : String :=
  "[" ++ log_level_str level ++ "] " ++ catName category ++ ": " ++ msg

/-- Observable delivery events of `log_output`. -/
inductive LogEvent where
  | sinkCall : Nat → CVal Nat → String → LogEvent
  | printfOut : String → LogEvent
  | logFault : LogEvent
deriving DecidableEq

/-- `log_output` (test-runner.c lines 82-113).  The record is dropped unless
`level & 31` is non-zero; otherwise the string is formatted and delivered to
`callback.callback(callback.data, str)` when that pointer is non-NULL, else
printed to stdout with `printf("%s\n", str)` (the event carries the string;
the trailing newline is the console write's line terminator).  Branching on
an indeterminate pointer is a fault. -/
def log_output (catName : Nat → String) (m : MGBA) (category level : Nat)
    (msg : String) : List LogEvent :=
  if level &&& 31 ≠ 0 then
    let str := format_log catName category level msg
    match m.callback.callback with
    | CVal.undef => [LogEvent.logFault]
    | CVal.defined none => [LogEvent.printfOut str]
    | CVal.defined (some f) => [LogEvent.sinkCall f m.callback.data str]
  else []

/-- Occurrences of a teardown call through function-pointer token `fn` in a
trace. -/
def teardown_count (fn : Nat) (tr : List Event) : Nat :=
  tr.countP fun e =>
    match e with
    | Event.teardown f _ => f == fn
    | _ => false

/-! Concrete fixtures used by witnesses and counterexamples. -/

/-- A concrete core reporting the GBA dimensions 240x160, whose
`mCoreLoadFile` fails. -/
def core0 : Core :=
  { desiredWidth := 240, desiredHeight := 160
  , loadFileResult := false, state := 0 }

/-- An engine environment recognizing exactly the file "test.gba". -/
def env0 : String → Option Core :=
  fun s => if s = "test.gba" then some core0 else none

/-- An engine environment recognizing no file. -/
def envNone : String → Option Core := fun _ => none

/-- The runner `new_runner env0 "test.gba"` produces. -/
def m0 : MGBA :=
  { core := core0
  , videoBuffer := { width := 240, height := 160, buffer := videoBufferPtr }
  , filename := "test.gba"
  , callback :=
      { data := CVal.undef
      , callback := CVal.defined none
      , destroy := CVal.undef } }

/-- A concrete `runFrame` behaviour: steps the core's opaque state. -/
def rf0 : Core → Core := fun c => { c with state := c.state + 1 }

/-- A concrete sink A. -/
def cbA : callback :=
  { data := CVal.defined 10
  , callback := CVal.defined (some 11)
  , destroy := CVal.defined (some 12) }

/-- A concrete sink B, distinct from A. -/
def cbB : callback :=
  { data := CVal.defined 20
  , callback := CVal.defined (some 21)
  , destroy := CVal.defined (some 22) }

/-- The fixture runner with sink A registered. -/
def mA : MGBA := set_logger m0 cbA

/-- A concrete category-name lookup. -/
def catName0 : Nat → String := fun _ => "cat"

/-! Helper lemmas shared by several claims. -/

/-- Iterating `advance_frame` never touches the `videoBuffer` field: each
step only replaces the `core` field. -/
theorem advance_frame_iterate_videoBuffer (rf : Core → Core) (m : MGBA)
    (n : Nat) : ((advance_frame rf)^[n] m).videoBuffer = m.videoBuffer := by
  induction n generalizing m with
  | zero => rfl
  | succ k ih =>
      rw [Function.iterate_succ_apply]
      exact (ih (advance_frame rf m)).trans rfl

/-- C1: the claim says the backing allocation of the video buffer is exactly
`width*height*4` bytes.  The code computes `videoBufferSize = width * height
* BYTES_PER_PIXEL` (already a byte count) and then passes `videoBufferSize *
sizeof(uint32_t)` to `malloc`, allocating four times as much.  Evaluated at
the GBA dimensions 240x160: the code allocates 614400 bytes while
`width*height*4 = 153600`. -/
theorem c1_video_alloc_bug :
    video_buffer_malloc_bytes 240 160 = 614400 ∧
    240 * 160 * BYTES_PER_PIXEL = 153600 ∧
    video_buffer_malloc_bytes 240 160 ≠ 240 * 160 * BYTES_PER_PIXEL := by
  refine ⟨by norm_num [video_buffer_malloc_bytes, BYTES_PER_PIXEL], by
    norm_num [BYTES_PER_PIXEL], by
    norm_num [video_buffer_malloc_bytes, BYTES_PER_PIXEL]⟩

/-- C2: the claim says destroying a runner on which `set_logger` was never
called performs a harmless no-op teardown on the default (null) sink.  In
the code `new_runner` initializes only `callback.callback` (to NULL);
`callback.destroy` stays indeterminate, and `free_runner` calls it
unconditionally — a fault, not a no-op: every runner fresh from `new_runner`
produces a fault event when freed. -/
theorem c2_default_teardown_faults (env : String → Option Core)
    (filename : String) (m : MGBA) (h : new_runner env filename = some m) :
    Event.fault ∈ free_runner m := by
  cases henv : env filename with
  | none => simp [new_runner, henv] at h
  | some core =>
      simp only [new_runner, henv, Option.some.injEq] at h
      subst h
      simp [free_runner, call_fnptr]

/-- Witness for C2 at the concrete environment `env0` and file "test.gba". -/
theorem c2_default_teardown_faults_witness : Event.fault ∈ free_runner m0 :=
  c2_default_teardown_faults env0 "test.gba" m0 (by decide)

/-- C4: for every file no engine recognizes, `new_runner` returns NULL and
hands the caller no runner object. -/
theorem c4_unsupported_no_runner (env : String → Option Core)
    (filename : String) (h : env filename = none) :
    new_runner env filename = none := by
  simp [new_runner, h]

/-- Witness for C4 at the environment recognizing no file. -/
theorem c4_unsupported_no_runner_witness :
    new_runner envNone "bad.bin" = none :=
  c4_unsupported_no_runner envNone "bad.bin" rfl

/-- C7: `new_runner` ignores the result of `mCoreLoadFile`: whenever engine
lookup succeeds, it returns a fully wired runner even when the load fails,
and surfaces no ROM-load error. -/
theorem c7_loadfile_ignored (env : String → Option Core) (filename : String)
    (core : Core) (h : env filename = some core)
    (_hfail : core.loadFileResult = false) :
    ∃ m, new_runner env filename = some m ∧
      m.core = core ∧
      m.videoBuffer.width = core.desiredWidth ∧
      m.videoBuffer.height = core.desiredHeight ∧
      m.filename = filename ∧
      m.callback.callback = CVal.defined none := by
  refine ⟨{ core := core
          , videoBuffer :=
              { width := core.desiredWidth, height := core.desiredHeight
              , buffer := videoBufferPtr }
          , filename := filename
          , callback :=
              { data := CVal.undef
              , callback := CVal.defined none
              , destroy := CVal.undef } }, ?_, rfl, rfl, rfl, rfl, rfl⟩
  simp [new_runner, h]

/-- Witness for C7: `core0` rejects the ROM load yet a wired runner comes
back. -/
theorem c7_loadfile_ignored_witness :
    ∃ m, new_runner env0 "test.gba" = some m ∧
      m.core = core0 ∧
      m.videoBuffer.width = core0.desiredWidth ∧
      m.videoBuffer.height = core0.desiredHeight ∧
      m.filename = "test.gba" ∧
      m.callback.callback = CVal.defined none :=
  c7_loadfile_ignored env0 "test.gba" core0 (by decide) rfl

/-- C9 counterexample: the claim orders the teardown steps as deinit,
teardown, free buffer, free filename, free runner; on the concrete runner
`mA` the code's trace differs (it frees the filename before the buffer). -/
theorem c9_order_counterexample :
    free_runner mA ≠
      [Event.coreDeinit, Event.teardown 12 (CVal.defined 10),
       Event.freeBuffer, Event.freeFilename, Event.freeRunner] := by
  decide

/-- C9 amended: `free_runner` on a runner with a registered teardown
performs exactly: core deinit, then the teardown call on the stored context,
then releases the filename copy, then the video buffer, then the runner. -/
theorem c9_free_order (m : MGBA) (f : Nat)
    (h : m.callback.destroy = CVal.defined (some f)) :
    free_runner m =
      [Event.coreDeinit, Event.teardown f m.callback.data,
       Event.freeFilename, Event.freeBuffer, Event.freeRunner] := by
  simp [free_runner, call_fnptr, h]

/-- Witness for the amended C9 on the concrete runner `mA`. -/
theorem c9_free_order_witness :
    free_runner mA =
      [Event.coreDeinit, Event.teardown 12 mA.callback.data,
       Event.freeFilename, Event.freeBuffer, Event.freeRunner] :=
  c9_free_order mA 12 rfl

/-- C3: a record whose level has no bit inside the 0x1F mask is delivered
nowhere; a record inside the mask is delivered to exactly one destination:
the registered sink's invocation function when `callback.callback` is
non-NULL, otherwise the default stdout stream. -/
theorem c3_log_filter_dispatch (catName : Nat → String) (m : MGBA)
    (c : Option Nat) (hc : m.callback.callback = CVal.defined c)
    (category level : Nat) (msg : String) :
    (level &&& 31 = 0 → log_output catName m category level msg = []) ∧
    (level &&& 31 ≠ 0 →
      log_output catName m category level msg =
        match c with
        | none =>
            [LogEvent.printfOut (format_log catName category level msg)]
        | some f =>
            [LogEvent.sinkCall f m.callback.data
              (format_log catName category level msg)]) := by
  constructor
  · intro h0
    simp [log_output, h0]
  · intro h1
    cases c with
    | none => simp [log_output, hc, h1]
    | some f => simp [log_output, hc, h1]

/-- Witness for C3: a FATAL record on the runner with sink A registered. -/
theorem c3_log_filter_dispatch_witness :
    (1 &&& 31 = 0 → log_output catName0 mA 0 1 "x" = []) ∧
    (1 &&& 31 ≠ 0 →
      log_output catName0 mA 0 1 "x" =
        match (some 11 : Option Nat) with
        | none => [LogEvent.printfOut (format_log catName0 0 1 "x")]
        | some f =>
            [LogEvent.sinkCall f mA.callback.data
              (format_log catName0 0 1 "x")]) :=
  c3_log_filter_dispatch catName0 mA (some 11) rfl 0 1 "x"

/-- C5: every delivered record carries the string
"[LEVEL_NAME] category: message"; the level name is the closed enumeration
FATAL/ERROR/WARNING/INFO/DEBUG/STUB/GAME ERROR with "Unknown" for anything
else; and category "cat", level FATAL, message "boom" formats to exactly
"[FATAL] cat: boom". -/
theorem c5_log_format (catName : Nat → String) (m : MGBA) (c : Option Nat)
    (hc : m.callback.callback = CVal.defined c) (category level : Nat)
    (msg : String) :
    (∀ e ∈ log_output catName m category level msg,
        e = LogEvent.printfOut (format_log catName category level msg) ∨
        ∃ f, e = LogEvent.sinkCall f m.callback.data
          (format_log catName category level msg)) ∧
    log_level_str mLOG_FATAL = "FATAL" ∧
    log_level_str mLOG_ERROR = "ERROR" ∧
    log_level_str mLOG_WARN = "WARNING" ∧
    log_level_str mLOG_INFO = "INFO" ∧
    log_level_str mLOG_DEBUG = "DEBUG" ∧
    log_level_str mLOG_STUB = "STUB" ∧
    log_level_str mLOG_GAME_ERROR = "GAME ERROR" ∧
    (∀ l, l ≠ mLOG_FATAL → l ≠ mLOG_ERROR → l ≠ mLOG_WARN →
        l ≠ mLOG_INFO → l ≠ mLOG_DEBUG → l ≠ mLOG_STUB →
        l ≠ mLOG_GAME_ERROR → log_level_str l = "Unknown") ∧
    format_log (fun _ => "cat") 0 mLOG_FATAL "boom" = "[FATAL] cat: boom" := by
  refine ⟨?_, rfl, rfl, rfl, rfl, rfl, rfl, rfl, ?_, by decide⟩
  · intro e he
    by_cases h31 : level &&& 31 = 0
    · simp [log_output, h31] at he
    · cases c with
      | none =>
          simp [log_output, hc, h31] at he
          exact Or.inl he
      | some f =>
          simp [log_output, hc, h31] at he
          exact Or.inr ⟨f, he⟩
  · intro l h1 h2 h3 h4 h5 h6 h7
    simp [log_level_str, h1, h2, h3, h4, h5, h6, h7]

/-- Witness for C5 on the runner with sink A registered, category 0, level
FATAL, message "boom". -/
theorem c5_log_format_witness :
    (∀ e ∈ log_output catName0 mA 0 mLOG_FATAL "boom",
        e = LogEvent.printfOut (format_log catName0 0 mLOG_FATAL "boom") ∨
        ∃ f, e = LogEvent.sinkCall f mA.callback.data
          (format_log catName0 0 mLOG_FATAL "boom")) ∧
    log_level_str mLOG_FATAL = "FATAL" ∧
    log_level_str mLOG_ERROR = "ERROR" ∧
    log_level_str mLOG_WARN = "WARNING" ∧
    log_level_str mLOG_INFO = "INFO" ∧
    log_level_str mLOG_DEBUG = "DEBUG" ∧
    log_level_str mLOG_STUB = "STUB" ∧
    log_level_str mLOG_GAME_ERROR = "GAME ERROR" ∧
    (∀ l, l ≠ mLOG_FATAL → l ≠ mLOG_ERROR → l ≠ mLOG_WARN →
        l ≠ mLOG_INFO → l ≠ mLOG_DEBUG → l ≠ mLOG_STUB →
        l ≠ mLOG_GAME_ERROR → log_level_str l = "Unknown") ∧
    format_log (fun _ => "cat") 0 mLOG_FATAL "boom" = "[FATAL] cat: boom" :=
  c5_log_format catName0 mA (some 11) rfl 0 mLOG_FATAL "boom"

/-- C6: installing sink A then sink B with `set_logger` and destroying the
runner calls B's teardown exactly once and A's teardown zero times. -/
theorem c6_replace_sink_teardown (m : MGBA) (a b : callback) (fA fB : Nat)
    (_ha : a.destroy = CVal.defined (some fA))
    (hb : b.destroy = CVal.defined (some fB)) (hne : fA ≠ fB) :
    teardown_count fB (free_runner (set_logger (set_logger m a) b)) = 1 ∧
    teardown_count fA (free_runner (set_logger (set_logger m a) b)) = 0 := by
  constructor
  · simp [set_logger, free_runner, call_fnptr, hb, teardown_count,
      List.countP_cons, List.countP_nil]
  · simp [set_logger, free_runner, call_fnptr, hb, teardown_count,
      List.countP_cons, List.countP_nil, Ne.symm hne]

/-- Witness for C6 with the concrete sinks A and B. -/
theorem c6_replace_sink_teardown_witness :
    teardown_count 22 (free_runner (set_logger (set_logger m0 cbA) cbB)) = 1 ∧
    teardown_count 12 (free_runner (set_logger (set_logger m0 cbA) cbB)) = 0 :=
  c6_replace_sink_teardown m0 cbA cbB 12 22 rfl rfl (by decide)

/-- C8: after any number of `advance_frame` calls (for any collaborator
`runFrame` behaviour), `get_video_buffer` still reports the width and height
determined at creation from the engine's desired dimensions. -/
theorem c8_dimensions_invariant (env : String → Option Core)
    (filename : String) (core : Core) (rf : Core → Core) (m : MGBA)
    (henv : env filename = some core)
    (h : new_runner env filename = some m) (n : Nat) :
    (get_video_buffer ((advance_frame rf)^[n] m)).1.width =
      core.desiredWidth ∧
    (get_video_buffer ((advance_frame rf)^[n] m)).1.height =
      core.desiredHeight := by
  simp only [new_runner, henv, Option.some.injEq] at h
  subst h
  simp [get_video_buffer, advance_frame_iterate_videoBuffer]

/-- Witness for C8 after three frames of the concrete core. -/
theorem c8_dimensions_invariant_witness :
    (get_video_buffer ((advance_frame rf0)^[3] m0)).1.width =
      core0.desiredWidth ∧
    (get_video_buffer ((advance_frame rf0)^[3] m0)).1.height =
      core0.desiredHeight :=
  c8_dimensions_invariant env0 "test.gba" core0 rf0 m0 (by decide) (by decide) 3

/-- C10: `get_video_buffer` is a pure read: at any point after creation,
also interleaved with `advance_frame`, it returns the (width, height,
buffer) triple stored at creation and leaves every field of the runner
unchanged. -/
theorem c10_get_video_buffer_pure (env : String → Option Core)
    (filename : String) (m : MGBA)
    (_hnew : new_runner env filename = some m) (rf : Core → Core) (n : Nat) :
    (get_video_buffer ((advance_frame rf)^[n] m)).1 = m.videoBuffer ∧
    (get_video_buffer ((advance_frame rf)^[n] m)).2 =
      (advance_frame rf)^[n] m :=
  ⟨advance_frame_iterate_videoBuffer rf m n, rfl⟩

/-- Witness for C10 after three frames of the concrete core. -/
theorem c10_get_video_buffer_pure_witness :
    (get_video_buffer ((advance_frame rf0)^[3] m0)).1 = m0.videoBuffer ∧
    (get_video_buffer ((advance_frame rf0)^[3] m0)).2 =
      (advance_frame rf0)^[3] m0 :=
  c10_get_video_buffer_pure env0 "test.gba" m0 (by decide) rf0 3

end TestRunner
